import Mathlib

/-!
Verification development for the `rvhd` VHD image library.

The Rust sources are shallowly embedded: machine integers become `Nat`
(with explicit `% 2^32` where u32 truncation matters), fallible code
returns `Res` (`ok` / `err` / `panic`, the last modelling Rust panics
such as `todo!()`, out-of-bounds indexing and `unwrap()` on errors),
and the mutable `SparseExtent` state becomes explicit state passing on
a `SparseState` record.  The backing file is modelled as a total byte
function `Nat → Nat`; the underlying file provider is abstracted as
always completing reads and writes in full, which is the spec's
"external collaborator" boundary.
-/

namespace Rvhd

/-- A file is modelled as its byte content, addressed from offset 0. -/
abbrev File : Type := Nat → Nat

/-- Overwrite `data.length` bytes of `f` starting at byte `off`. -/
def writeBytes (f : File) (off : Nat) (data : List Nat) : File :=
  fun b => if off ≤ b ∧ b < off + data.length then data.getD (b - off) 0 else f b

/-- Read `len` bytes of `f` starting at byte `off`. -/
def fileSlice (f : File) (off len : Nat) : List Nat :=
  (List.range len).map fun i => f (off + i)

/-- Error kinds, from `src/error.rs` (`VhdError`); the `Io` payload is dropped. -/
inductive VhdError where
  | ReadBeyondEOD
  | WriteBeyondEOD
  | UnexpectedEOD
  | WriteZero
  | NotFound
  | FileTooSmall
  | InvalidHeaderCookie
  | InvalidHeaderChecksum
  | InvalidSparseHeaderCookie
  | InvalidSparseHeaderChecksum
  | InvalidSparseHeaderOffset
  | DiskSizeTooBig
  | UnknownVhdType (n : Nat)
  | InvalidBlockIndex (i : Nat)
  | UnexpectedBlockId (i : Nat) (id : Nat)
  | ParentNotExist
  | ParentNotDynamic
  | FilePathNeedAbsolute
  | CannotGetRelativePath
  | NeedDyncOrDiffImage
  | Io
deriving DecidableEq, Repr

/-- Result of running a piece of Rust code: normal return, `Err`, or a panic
(`todo!()`, out-of-bounds slice indexing, `unwrap()` on a failed result). -/
inductive Res (α : Type) where
  | ok : α → Res α
  | err : VhdError → Res α
  | panic : Res α
deriving DecidableEq, Repr

def Res.bind {α β : Type} : Res α → (α → Res β) → Res β
  | .ok a, f => f a
  | .err e, _ => .err e
  | .panic, _ => .panic

def Res.map {α β : Type} (f : α → β) : Res α → Res β
  | .ok a => .ok (f a)
  | .err e => .err e
  | .panic => .panic

/-- `src/vhd/mod.rs`: `VhdType` (Fixed=2, Dynamic=3, Diff=4). -/
inductive VhdType where
  | Fixed
  | Dynamic
  | Diff
deriving DecidableEq, Repr

/-! ## The `math` helpers

`src/lib.rs` declares `mod math;` but the module's source file is not in the
repository, so these are reconstructed from the spec's uses of them. -/

/-- Modelled from the spec: `math::ceil` is missing from the sources; §3
invariant 3 uses it as `max_bat_size = ⌈current_size / block_size⌉`. -/
def math.ceil (x a : Nat) : Nat := (x + a - 1) / a

/-- Modelled from the spec: `math::round_up` is missing from the sources; §4.5
"pads the serialised region up to a 512-byte boundary". -/
def math.round_up (x a : Nat) : Nat := (x + a - 1) / a * a

/-- Modelled from the spec: `math::round_down` is missing from the sources;
used by the sparse write path to align a length down to a sector multiple. -/
def math.round_down (x a : Nat) : Nat := x / a * a

/-- Modelled from the spec: `math::bound_to` is missing from the sources; §4.8
"Every read_at/write_at is clipped against capacity; reads past capacity fail"
and §8 "write_at(capacity-1, buf of length 2) writes exactly 1 byte". -/
def math.bound_to (capacity offset len : Nat) : Option Nat :=
  if offset < capacity then some (min len (capacity - offset)) else none

/-! ## CHS geometry (`src/geometry.rs`) -/

structure Geometry where
  cylinders : Nat
  heads : Nat
  sectors_per_track : Nat
  bytes_per_sector : Nat
deriving DecidableEq, Repr

/-- `geometry.rs` lines 37-41: the `total_sectors` computation inside
`with_vhd_capacity_and_sector`.  The `else` arm is `capacity as u32 /
sector_size`, hence the `% 2^32` truncation. -/
def vhd_total_sectors (capacity sector_size : Nat) : Nat :=
  if capacity > 65535 * 16 * 255 * sector_size then
    65535 * 16 * 255
  else
    capacity % 4294967296 / sector_size

/-- `Geometry::with_vhd_capacity_and_sector` (`src/geometry.rs`).  Note the
source binds `let (heads_per_cylinder, sectors_per_track) = ... (255, 16)`,
so the first component of the pair is the head count. -/
def Geometry.with_vhd_capacity_and_sector (capacity sector_size : Nat) : Geometry :=
  let total_sectors := vhd_total_sectors capacity sector_size
  let hs :=
    if total_sectors > 65535 * 16 * 63 then
      ((255 : Nat), (16 : Nat))
    else
      let sectors_per_track := 17
      let cylinders_times_heads := total_sectors / sectors_per_track
      let heads_per_cylinder := (cylinders_times_heads + 1023) / 1024
      let heads_per_cylinder := if heads_per_cylinder < 4 then 4 else heads_per_cylinder
      let step :=
        if cylinders_times_heads ≥ heads_per_cylinder * 1024 ∨ heads_per_cylinder > 16 then
          (16, 31, total_sectors / 31)
        else
          (heads_per_cylinder, sectors_per_track, cylinders_times_heads)
      if step.2.2 ≥ step.1 * 1024 then (16, 63) else (step.1, step.2.1)
  let cylinders := total_sectors / hs.2 / hs.1
  { cylinders := cylinders
    heads := hs.1
    sectors_per_track := hs.2
    bytes_per_sector := sector_size }

def Geometry.with_vhd_capacity (capacity : Nat) : Geometry :=
  Geometry.with_vhd_capacity_and_sector capacity 512

/-! ## BAT (`src/vhd/sparse/bat.rs`) -/

def DD_BLOCK_UNUSED : Nat := 0xFFFFFFFF

structure VhdBat where
  bat : List Nat
deriving DecidableEq, Repr

def VhdBat.new (entries : Nat) : VhdBat :=
  ⟨List.replicate entries DD_BLOCK_UNUSED⟩

/-- `VhdBat::block_id`: in-range lookup or `InvalidBlockIndex`. -/
def VhdBat.block_id (b : VhdBat) (index : Nat) : Res Nat :=
  match b.bat.get? index with
  | some id => .ok id
  | none => .err (.InvalidBlockIndex index)

/-- `VhdBat::set_block_id` as written in the source: the bounds check is
`if index < self.bat.len() { return Err(...) }`, so an in-range index is
rejected, and the subsequent `self.bat[index] = id` runs only for an
out-of-range index, where it panics. -/
def VhdBat.set_block_id (b : VhdBat) (index : Nat) (id : Nat) : Res VhdBat :=
  if index < b.bat.length then
    .err (.InvalidBlockIndex index)
  else
    .panic

/-! ## The sparse extent (`src/vhd/sparse.rs`)

`SparseExtent`'s interior-mutable fields (`RefCell`s) become plain fields of
`SparseState`, and every method takes and returns the state explicitly.  The
owned `VhdFile` becomes the `file` byte function together with a tracked
`file_size`; an optional parent image becomes an optional byte function
(its `read_at` is total, covering the "zero or parent" fallback source). -/

structure SparseState where
  bat : VhdBat
  cached_block_index : Nat
  cached_bitmap : List Nat
  cached_bitmap_dirty : Bool
  next_block_pos : Nat
  file : File
  file_size : Nat
  block_size : Nat
  table_offset : Nat
  parent : Option File

/-- `usize::max_value()` on a 64-bit target. -/
def INVALID_CACHE_INDEX : Nat := 18446744073709551615

def SECTOR : Nat := 512

/-- `calc_sector_mask`: `1 << (7 - (sector_in_block % 8) as u8)`. -/
def calc_sector_mask (sector_in_block : Nat) : Nat :=
  1 <<< (7 - sector_in_block % 8)

/-- The bitmap read on `sparse.rs` line 277:
`cached_bitmap[sector_in_block / 8] & sector_mask != 0`. -/
def bitmap_test (bm : List Nat) (sector_in_block : Nat) : Bool :=
  decide (bm.getD (sector_in_block / 8) 0 &&& calc_sector_mask sector_in_block ≠ 0)

/-- `SparseExtent::save_cached_bitmap`.  Note line 257 of the source computes
the write position as `cached_block_index as u64 * SECTOR`, i.e. from the
block *index*, not from the BAT entry `cached_block_id` fetched just above. -/
def save_cached_bitmap (s : SparseState) : Res SparseState :=
  if s.cached_block_index = INVALID_CACHE_INDEX ∨ s.cached_bitmap_dirty = false then
    .ok s
  else
    (s.bat.block_id s.cached_block_index).bind fun cached_block_id =>
    if cached_block_id = DD_BLOCK_UNUSED then
      .err (.UnexpectedBlockId s.cached_block_index cached_block_id)
    else
      let bitmap_pos := s.cached_block_index * SECTOR
      .ok { s with
              file := writeBytes s.file bitmap_pos s.cached_bitmap
              cached_bitmap_dirty := false }

/-- `SparseExtent::populate_block_bitmap`.  As in the source, the function
returns `Ok(true)` on *every* path, including the `DD_BLOCK_UNUSED` one. -/
def populate_block_bitmap (s : SparseState) (index : Nat) : Res (Bool × SparseState) :=
  if s.cached_block_index = index then
    .ok (true, s)
  else
    (s.bat.block_id index).bind fun block_id =>
    if block_id = DD_BLOCK_UNUSED then
      .ok (true, s)
    else
      (save_cached_bitmap s).bind fun s =>
      let bitmap_pos := block_id * SECTOR
      .ok (true, { s with
                     cached_bitmap := fileSlice s.file bitmap_pos s.cached_bitmap.length
                     cached_block_index := index })

/-- `SparseExtent::flush` (the file provider's own flush is a no-op here). -/
def SparseExtent.flush (s : SparseState) : Res SparseState :=
  save_cached_bitmap s

/-- `SparseExtent::check_sector_mask`.  The `debug_assert_eq!` is a no-op in
release builds and is not modelled. -/
def check_sector_mask (s : SparseState) (index : Nat) (sector_in_block : Nat) :
    Res (Bool × SparseState) :=
  (if s.cached_block_index ≠ index then
     (populate_block_bitmap s index).bind fun (res, s) =>
       if res = false then .ok (some false, s) else .ok (none, s)
   else .ok (none, s)).bind fun (early, s) =>
  match early with
  | some b => .ok (b, s)
  | none => .ok (bitmap_test s.cached_bitmap sector_in_block, s)

/-- The scan loop inside `SparseExtent::read_sectors`. -/
def read_sectors_loop (s : SparseState) (block_index sector_in_block : Nat)
    (first_sector_bit : Bool) (to_read_in_sectors sectors_count : Nat) :
    Res (Nat × SparseState) :=
  if h : sectors_count < to_read_in_sectors then
    (check_sector_mask s block_index (sector_in_block + sectors_count)).bind
      fun (sector_bit, s) =>
        if sector_bit ≠ first_sector_bit then
          .ok (sectors_count, s)
        else
          read_sectors_loop s block_index sector_in_block first_sector_bit
            to_read_in_sectors (sectors_count + 1)
  else
    .ok (sectors_count, s)
termination_by to_read_in_sectors - sectors_count

/-- `SparseExtent::read_sectors`: the run of adjacent sectors sharing the
first sector's bitmap bit, returned as `(bit, run length in bytes)`. -/
def read_sectors (s : SparseState) (to_read block_index sector_in_block : Nat) :
    Res ((Bool × Nat) × SparseState) :=
  let to_read_in_sectors := to_read / SECTOR
  (check_sector_mask s block_index sector_in_block).bind fun (first_sector_bit, s) =>
  (read_sectors_loop s block_index sector_in_block first_sector_bit
      to_read_in_sectors 1).bind fun (sectors_count, s) =>
  .ok ((first_sector_bit, sectors_count * SECTOR), s)

/-- `SparseExtent::calc_sector_pos`. -/
def calc_sector_pos (s : SparseState) (block_index sector_in_block : Nat) : Res Nat :=
  (s.bat.block_id block_index).bind fun block_id =>
  if block_id = DD_BLOCK_UNUSED then
    .err (.UnexpectedBlockId block_index block_id)
  else
    .ok ((block_id + sector_in_block) * SECTOR + s.cached_bitmap.length)

/-- `SparseExtent::calc_bitmap_pos`. -/
def calc_bitmap_pos (s : SparseState) (block_index : Nat) : Res Nat :=
  (s.bat.block_id block_index).bind fun block_id =>
  if block_id = DD_BLOCK_UNUSED then
    .err (.UnexpectedBlockId block_index block_id)
  else
    .ok (block_id * SECTOR)

/-- `SparseExtent::read_parent_or_zero`: zero-fill for a root image, the
parent's bytes for a differencing image. -/
def read_parent_or_zero (s : SparseState) (offset len : Nat) : Res (List Nat) :=
  match s.parent with
  | some p => .ok (fileSlice p offset len)
  | none => .ok (List.replicate len 0)

/-- `SparseExtent::read_block_data`: returns whether the bytes came from this
file, together with the bytes themselves (the filled prefix of the caller's
buffer, whose length is `buf_len`).  The source computes
`let to_read = buffer.len() as u32`, truncating the buffer length to 32
bits for the branch tests and the `read_sectors` run; the partial-sector
branch then passes the *whole* buffer on. -/
def read_block_data (s : SparseState) (block_index offset_in_block buf_len : Nat) :
    Res ((Bool × List Nat) × SparseState) :=
  let sector_in_block := offset_in_block / SECTOR
  let offset_in_sector := offset_in_block % SECTOR
  let to_read := buf_len % 4294967296
  (if offset_in_sector ≠ 0 ∨ to_read < SECTOR then
     (check_sector_mask s block_index sector_in_block).bind fun (data_exist, s) =>
     .ok ((data_exist, buf_len), s)
   else
     (read_sectors s to_read block_index sector_in_block).bind
       fun ((data_exist, valid_len), s) =>
     .ok ((data_exist, valid_len), s)).bind fun ((data_exist, data_len), s) =>
  if data_exist then
    (calc_sector_pos s block_index sector_in_block).bind fun sector_pos =>
    let data_offset := sector_pos + offset_in_sector
    .ok ((true, fileSlice s.file data_offset data_len), s)
  else
    let offset := block_index * s.block_size + offset_in_block
    (read_parent_or_zero s offset data_len).bind fun bytes =>
    .ok ((false, bytes), s)

/-- `SparseExtent::read_block`: one block-bounded read step, returning the
bytes actually produced.  Line 364 of the source computes
`min(buffer.len() as u32, block_size - offset_in_block)` — the buffer
length is truncated to 32 bits, whence the `% 2^32`. -/
def read_block (s : SparseState) (offset buf_len : Nat) : Res (List Nat × SparseState) :=
  let block_size := s.block_size
  let block_index := offset / block_size
  let offset_in_block := offset % block_size
  let to_read := min (buf_len % 4294967296) (block_size - offset_in_block)
  (populate_block_bitmap s block_index).bind fun (block_in_current_file, s) =>
  if block_in_current_file then
    (read_block_data s block_index offset_in_block to_read).bind fun ((_, bytes), s) =>
    .ok (bytes, s)
  else
    (read_parent_or_zero s offset to_read).bind fun bytes =>
    .ok (bytes, s)

/-- The `ReadAt::read_at` loop of `SparseExtent`: repeat `read_block` until
the buffer is exhausted or a step returns 0 bytes. -/
def SparseExtent.read_at (s : SparseState) (offset buf_len : Nat) :
    Res (List Nat × SparseState) :=
  if buf_len = 0 then
    .ok ([], s)
  else
    (read_block s offset buf_len).bind fun (bytes, s) =>
    if h : bytes.length = 0 then
      .ok ([], s)
    else
      (SparseExtent.read_at s (offset + bytes.length) (buf_len - bytes.length)).bind
        fun (rest, s) =>
      .ok (bytes ++ rest, s)
termination_by buf_len
decreasing_by
  exact Nat.sub_lt (Nat.pos_of_ne_zero (by assumption)) (Nat.pos_of_ne_zero h)

/-- `SparseExtent::mark_cached_bitmap_dirty`. -/
def mark_cached_bitmap_dirty (s : SparseState) (sector_in_block : Nat) : SparseState :=
  { s with
      cached_bitmap := s.cached_bitmap.set (sector_in_block / 8)
        (s.cached_bitmap.getD (sector_in_block / 8) 0 |||
          calc_sector_mask sector_in_block)
      cached_bitmap_dirty := true }

/-- The bit-marking `while` loop at the end of `SparseExtent::write_block`. -/
def mark_dirty_loop (s : SparseState) (sector_in_block i to_write : Nat) : SparseState :=
  if _h : i < to_write then
    mark_dirty_loop (mark_cached_bitmap_dirty s sector_in_block)
      (sector_in_block + 1) (i + SECTOR) to_write
  else
    s
termination_by to_write - i
decreasing_by
  have h512 : SECTOR = 512 := rfl
  omega

/-- Big-endian byte serialisation of a u32 (`u32::swap_bytes` then the four
raw bytes, as written by `allocate_block`). -/
def u32_be_bytes (n : Nat) : List Nat :=
  [n / 16777216 % 256, n / 65536 % 256, n / 256 % 256, n % 256]

/-- `SparseExtent::allocate_block`.  (Unreachable from `write_block` in the
source because `populate_block_bitmap` always returns `Ok(true)`, and its
trailing `set_block_id` call cannot succeed; embedded in full regardless.) -/
def allocate_block (s : SparseState) (block_index : Nat) : Res SparseState :=
  (s.bat.block_id block_index).bind fun block_id =>
  if block_id ≠ DD_BLOCK_UNUSED then
    .err (.UnexpectedBlockId block_index block_id)
  else
    (save_cached_bitmap s).bind fun s =>
    let s := { s with cached_bitmap := List.replicate s.cached_bitmap.length 0 }
    let block_pos := s.next_block_pos
    let s := { s with
                 next_block_pos := block_pos + s.cached_bitmap.length + s.block_size
                 cached_block_index := block_index }
    let s :=
      if block_pos < s.file_size then
        { s with file := writeBytes s.file block_pos (List.replicate 512 0) }
      else s
    let s := { s with
                 file := writeBytes s.file (s.next_block_pos - 1) [0]
                 file_size := max s.file_size s.next_block_pos }
    let block_pos_in_sectors := block_pos / SECTOR
    (s.bat.set_block_id block_index block_pos_in_sectors).bind fun bat =>
    let s := { s with bat := bat }
    .ok { s with
            file := writeBytes s.file (s.table_offset + block_index * 4)
              (u32_be_bytes block_pos_in_sectors) }

/-- Splice `repl` into `buf` starting at `start` (the
`sector_buffer[start..end].copy_from_slice(...)` update). -/
def splice (buf : List Nat) (start : Nat) (repl : List Nat) : List Nat :=
  buf.take start ++ repl ++ buf.drop (start + repl.length)

/-- `SparseExtent::write_block`: one block-bounded write step. -/
def write_block (s : SparseState) (offset : Nat) (data : List Nat) :
    Res (Nat × SparseState) :=
  let block_size := s.block_size
  let block_index := offset / block_size
  (populate_block_bitmap s block_index).bind fun (block_in_current_file, s) =>
  (if block_in_current_file = false then allocate_block s block_index
   else .ok s).bind fun s =>
  let offset_in_block := offset % block_size
  let sector_in_block := offset_in_block / SECTOR
  let offset_in_sector := offset_in_block % SECTOR
  let to_write := min data.length (block_size - offset_in_block)
  if offset_in_sector ≠ 0 ∨ to_write < SECTOR then
    let to_write := min data.length (SECTOR - offset_in_sector)
    let sector_offset_in_block := math.round_down offset_in_sector SECTOR
    (read_block_data s block_index sector_offset_in_block SECTOR).bind
      fun ((data_exist, sector_buffer), s) =>
    let sector_buffer := splice sector_buffer offset_in_sector (data.take to_write)
    (calc_sector_pos s block_index sector_in_block).bind fun pos =>
    let s := { s with file := writeBytes s.file pos sector_buffer }
    let s :=
      if data_exist = false then mark_cached_bitmap_dirty s sector_in_block else s
    .ok (to_write, s)
  else
    let to_write := math.round_down to_write SECTOR
    (calc_sector_pos s block_index sector_in_block).bind fun pos =>
    let s := { s with file := writeBytes s.file pos (data.take to_write) }
    let s := mark_dirty_loop s sector_in_block 0 to_write
    .ok (to_write, s)

/-- The `WriteAt::write_at` loop of `SparseExtent`. -/
def SparseExtent.write_at (s : SparseState) (offset : Nat) (data : List Nat) :
    Res (Nat × SparseState) :=
  if h0 : data.length = 0 then
    .ok (0, s)
  else
    (write_block s offset data).bind fun (n, s) =>
    if h : n = 0 then
      .ok (0, s)
    else
      (SparseExtent.write_at s (offset + n) (data.drop n)).bind fun (written, s) =>
      .ok (n + written, s)
termination_by data.length
decreasing_by
  simp only [List.length_drop]
  exact Nat.sub_lt (Nat.pos_of_ne_zero h0) (Nat.pos_of_ne_zero h)

/-- `VhdImage::read_at` (`src/vhd/image.rs`), for a sparse extent:
capacity-bounded dispatch to the extent. -/
def VhdImage.read_at (s : SparseState) (capacity offset buf_len : Nat) :
    Res (List Nat × SparseState) :=
  match math.bound_to capacity offset buf_len with
  | some data_len => SparseExtent.read_at s offset data_len
  | none => .err .ReadBeyondEOD

/-- `VhdImage::write_at` (`src/vhd/image.rs`), for a sparse extent. -/
def VhdImage.write_at (s : SparseState) (capacity offset : Nat) (data : List Nat) :
    Res (Nat × SparseState) :=
  match math.bound_to capacity offset data.length with
  | some data_len => SparseExtent.write_at s offset (data.take data_len)
  | none => .err .WriteBeyondEOD

/-- `DD_BLOCKSIZE_DEFAULT = 0x0020_0000` (2 MiB). -/
def DD_BLOCKSIZE_DEFAULT : Nat := 2097152

/-- The in-memory state of a freshly created dynamic image of `nblocks`
default-sized blocks (`SparseExtent::create` with no parent): every BAT entry
is `DD_BLOCK_UNUSED` (`VhdBat::new`), the bitmap cache is invalid and zeroed
(`SparseExtent::new`), and there is no parent. -/
def freshSparse (nblocks : Nat) (f : File) (fsize npos : Nat) : SparseState :=
  { bat := VhdBat.new nblocks
    cached_block_index := INVALID_CACHE_INDEX
    cached_bitmap := List.replicate 512 0
    cached_bitmap_dirty := false
    next_block_pos := npos
    file := f
    file_size := fsize
    block_size := DD_BLOCKSIZE_DEFAULT
    table_offset := 1536
    parent := none }

/-! ## Sparse header (`src/vhd/sparse/header.rs`)

Only the fields the claims touch are carried; strings are abstracted by the
length of their UTF-16 encoding (`encode_utf16().count()`), which is all
`VhdHeader::new` uses of them. -/

def PLAT_CODE_NONE : Nat := 0x00000000
def PLAT_CODE_W2RU : Nat := 0x57327275
def PLAT_CODE_W2KU : Nat := 0x57326B75

structure VhdParentLocator where
  code : Nat
  data_space : Nat
  data_len : Nat
  res : Nat
  data_offset : Nat
deriving DecidableEq, Repr

def zeroLocator : VhdParentLocator :=
  { code := 0, data_space := 0, data_len := 0, res := 0, data_offset := 0 }

structure VhdHeader where
  table_offset : Nat
  max_bat_size : Nat
  block_size : Nat
  prt_uuid : Nat
  prt_ts : Nat
  prt_loc : List VhdParentLocator
deriving DecidableEq, Repr

/-- The parent data `VhdHeader::new` consumes: the parent footer's UUID and
timestamp and the UTF-16 code-unit count of the parent's file path. -/
structure ParentInfo where
  uuid : Nat
  timestamp : Nat
  path_utf16_len : Nat
deriving DecidableEq, Repr

/-- `VhdHeader::new` (`src/vhd/sparse/header.rs` lines 86-135).  With a parent
it fills parent-locator slot 0 with `PLAT_CODE_W2KU`, `data_space = SECTOR`,
`data_len` the UTF-16 byte length of the parent path and `data_offset` just
past the sector-padded BAT; the remaining seven slots keep the zeroed struct
(`code = 0`).  No slot receives `PLAT_CODE_W2RU`. -/
def VhdHeader.new (capacity table_offset block_size : Nat)
    (parent : Option ParentInfo) : VhdHeader :=
  let max_bat_size := math.ceil capacity block_size
  match parent with
  | none =>
      { table_offset := table_offset
        max_bat_size := max_bat_size
        block_size := block_size
        prt_uuid := 0
        prt_ts := 0
        prt_loc := List.replicate 8 zeroLocator }
  | some p =>
      let bat_size := math.round_up (max_bat_size * 4) SECTOR
      let loc0 : VhdParentLocator :=
        { code := PLAT_CODE_W2KU
          data_space := SECTOR
          data_len := p.path_utf16_len * 2
          res := 0
          data_offset := table_offset + bat_size }
      { table_offset := table_offset
        max_bat_size := max_bat_size
        block_size := block_size
        prt_uuid := p.uuid
        prt_ts := p.timestamp
        prt_loc := loc0 :: List.replicate 7 zeroLocator }

/-! ## Journal (`src/vhd/journal.rs`)

The journal file is modelled as the ordered list of its entries, each the
pair of the entry header's target `offset` and the payload bytes that follow
it; `journal_update` appends an entry at the journal's end-of-file and this
list records exactly that order. -/

def VHD_JOURNAL_METADATA : Nat := 0x01
def VHD_JOURNAL_DATA : Nat := 0x02

/-- One journal entry: target offset in the image and the payload bytes. -/
abbrev JEntries : Type := List (Nat × List Nat)

/-- `VhdJournal::journal_update`: append the entry and its payload at the
journal's end-of-file (header counters are bookkeeping only). -/
def journal_update (es : JEntries) (offset : Nat) (payload : List Nat) : JEntries :=
  es ++ [(offset, payload)]

/-- `SparseExtent::sparse_block_bitmap` (`src/vhd/sparse.rs` lines 148-153):
both the `calc_bitmap_pos` and `populate_block_bitmap` results are
`.unwrap()`ed, so a failure panics. -/
def sparse_block_bitmap (s : SparseState) (bat_block_index : Nat) :
    Res ((Nat × List Nat) × SparseState) :=
  match calc_bitmap_pos s bat_block_index with
  | .ok bitmap_offset =>
      (match populate_block_bitmap s bat_block_index with
       | .ok (_, s) => .ok ((bitmap_offset, s.cached_bitmap), s)
       | _ => .panic)
  | _ => .panic

/-- `SparseExtent::sparse_block_data` (`src/vhd/sparse.rs` lines 155-160). -/
def sparse_block_data (s : SparseState) (bat_block_index buf_len : Nat) :
    Res ((Nat × List Nat) × SparseState) :=
  (calc_sector_pos s bat_block_index 0).bind fun block_offset =>
  (read_block s block_offset buf_len).bind fun (bytes, s) =>
  .ok ((block_offset, bytes), s)

/-- `VhdJournal::add_block` (`src/vhd/journal.rs` lines 143-174).  The mode
tests are written with bitwise OR in the source:
`if (mode | VHD_JOURNAL_METADATA) == VHD_JOURNAL_METADATA { ... }` and
likewise for `VHD_JOURNAL_DATA`.  The data branch reads the block into
`Vec::with_capacity(block_size)`, a vector of length 0, so `buf_len = 0`. -/
def VhdJournal.add_block (disk_type : VhdType) (s : SparseState) (es : JEntries)
    (bat_block_index mode : Nat) : Res (SparseState × JEntries) :=
  match disk_type with
  | .Fixed => .err .NeedDyncOrDiffImage
  | _ =>
    (if mode ||| VHD_JOURNAL_METADATA = VHD_JOURNAL_METADATA then
       (sparse_block_bitmap s bat_block_index).bind fun ((offset, bitmap), s) =>
       .ok (s, journal_update es offset bitmap)
     else .ok (s, es)).bind fun (s, es) =>
    if mode ||| VHD_JOURNAL_DATA = VHD_JOURNAL_DATA then
      (sparse_block_data s bat_block_index 0).bind fun ((offset, buffer), s) =>
      .ok (s, journal_update es offset buffer)
    else
      .ok (s, es)

/-- `VhdJournal::commit` as written in the source: `todo!("commit")`. -/
def VhdJournal.commit (es : JEntries) : Res Unit := .panic

/-- `VhdJournal::revert` as written in the source: `todo!("revert")`. -/
def VhdJournal.revert (es : JEntries) : Res Unit := .panic

/-! ## Edit sessions guarded by a journal

A session interleaves journal recordings (`VhdJournal::create`'s metadata
entries and `add_block`, which capture the current bytes of a region before
the caller mutates them) with mutations of the image file. -/

inductive JStep where
  | record : Nat → Nat → JStep
  | mutate : Nat → List Nat → JStep

/-- Run a session: `record off len` appends a journal entry holding the
*current* bytes at `[off, off+len)`; `mutate off data` overwrites the file. -/
def runTrace (f : File) (steps : List JStep) (es : JEntries) : File × JEntries :=
  match steps with
  | [] => (f, es)
  | .record off len :: rest =>
      runTrace f rest (journal_update es off (fileSlice f off len))
  | .mutate off data :: rest =>
      runTrace (writeBytes f off data) rest es

/-! ## Concrete fixtures -/

def zeroFile : File := fun _ => 0

/-- A one-block sparse state whose block 0 is allocated at sector 6 and
currently cached, with an all-zero cached bitmap. -/
def allocDemoState : SparseState :=
  { bat := ⟨[6]⟩
    cached_block_index := 0
    cached_bitmap := List.replicate 512 0
    cached_bitmap_dirty := false
    next_block_pos := 2099712
    file := zeroFile
    file_size := 2100224
    block_size := DD_BLOCKSIZE_DEFAULT
    table_offset := 1536
    parent := none }

/-- `allocDemoState` with bitmap bytes `0xFF` and the dirty flag set. -/
def dirtyDemoState : SparseState :=
  { allocDemoState with
      cached_bitmap := List.replicate 512 255
      cached_bitmap_dirty := true }

/-! ## Claims -/

/-- C5: the claim says `VhdBat::set_block_id(i, v)` fails with
`InvalidBlockIndex(i)` exactly when `i` is out of range and otherwise sets
entry `i` and succeeds.  The source's bounds check is inverted: on a 2-entry
BAT the in-range indices 0 and 1 are rejected with `InvalidBlockIndex`, and
the out-of-range index 2 reaches `self.bat[index] = id`, which panics. -/
theorem set_block_id_bounds_check_inverted :
    VhdBat.set_block_id (VhdBat.new 2) 0 5 = .err (.InvalidBlockIndex 0) ∧
    VhdBat.set_block_id (VhdBat.new 2) 1 5 = .err (.InvalidBlockIndex 1) ∧
    VhdBat.set_block_id (VhdBat.new 2) 2 5 = .panic := by
  exact ⟨rfl, rfl, rfl⟩

/-- C8: the claim says `total_sectors = min(C/512, 65535·16·255)` for every
capacity including `C > 4 GiB`, and `heads = 16`, `spt = 255` above the
large-disk threshold.  The source truncates `capacity as u32` before
dividing, so `C = 2^32` yields `total_sectors = 0` instead of `2^23`; and it
binds the large-disk tuple as `(heads, spt) = (255, 16)`, so just past the
cap (`C = 65535·16·255·512 + 512`) it returns `heads = 255`,
`sectors_per_track = 16`. -/
theorem geometry_truncates_capacity_and_transposes_heads :
    vhd_total_sectors 4294967296 512 = 0 ∧
    min (4294967296 / 512) (65535 * 16 * 255) = 8388608 ∧
    (Geometry.with_vhd_capacity_and_sector 136899994112 512).heads = 255 ∧
    (Geometry.with_vhd_capacity_and_sector 136899994112 512).sectors_per_track = 16 := by
  refine ⟨by decide, by decide, rfl, rfl⟩

/-- C4: the claim says the public operations return a `Result` and never
panic.  `VhdJournal::commit` and `VhdJournal::revert` are `todo!()` stubs
that panic on every call, and `VhdBat::set_block_id` panics on any
out-of-range index via `self.bat[index] = id`. -/
theorem journal_commit_revert_panic :
    (∀ es : JEntries, VhdJournal.commit es = .panic) ∧
    (∀ es : JEntries, VhdJournal.revert es = .panic) ∧
    VhdBat.set_block_id (VhdBat.new 4) 9 1 = .panic :=
  ⟨fun _ => rfl, fun _ => rfl, rfl⟩

set_option maxRecDepth 40000 in
/-- C3: the claim says that with a dirty cached bitmap, `flush` (via
`save_cached_bitmap`) writes the bitmap at byte offset
`bat[cached_block_index]·512` (= 6·512 = 3072 here) and clears the dirty
flag.  The source computes the position from the block *index* instead:
with `cached_block_index = 0` and `bat[0] = 6` the 0xFF bitmap lands at
byte 0 (`0·512`), while byte 3072 keeps its prior value 0; only the
dirty-flag clearing matches the claim. -/
theorem flush_writes_bitmap_at_index_not_bat_entry :
    (SparseExtent.flush dirtyDemoState).map
        (fun s => (s.file 0, s.file 3072, s.cached_bitmap_dirty)) =
      .ok (255, 0, false) := by
  decide

set_option maxRecDepth 40000 in
/-- C6: the claim says `add_block(index, mode)` records the bitmap entry iff
bit `METADATA` (0x1) is set in `mode` and the data entry iff bit `DATA`
(0x2) is set, so `mode = 3` records both and `mode = 0` neither; on a fixed
image it fails with `NeedDyncOrDiffImage`.  The source tests
`(mode | FLAG) == FLAG`, which inverts the two cases: `mode = 3` appends no
entry at all and `mode = 0` appends both. -/
theorem add_block_mode_tests_use_or :
    (VhdJournal.add_block .Fixed allocDemoState [] 0 3).map (fun r => r.2.length) =
      .err .NeedDyncOrDiffImage ∧
    (VhdJournal.add_block .Dynamic allocDemoState [] 0 3).map (fun r => r.2.length) =
      .ok 0 ∧
    (VhdJournal.add_block .Dynamic allocDemoState [] 0 0).map (fun r => r.2.length) =
      .ok 2 := by
  refine ⟨rfl, rfl, ?_⟩
  decide

/-- C9: the claim says creating a differencing image populates exactly two
parent-locator slots, slot 0 `W2ku` and slot 1 `W2ru`.  `VhdHeader::new`
fills only slot 0 (code `W2ku`, `data_space = 512`, `data_len` = UTF-16 path
bytes); slot 1 — like every other remaining slot — keeps `code = 0`, and
exactly one slot in total is occupied. -/
theorem diff_header_populates_single_locator :
    ((VhdHeader.new 2097152 1536 DD_BLOCKSIZE_DEFAULT
        (some ⟨77, 1234, 5⟩)).prt_loc.getD 0 zeroLocator).code = PLAT_CODE_W2KU ∧
    ((VhdHeader.new 2097152 1536 DD_BLOCKSIZE_DEFAULT
        (some ⟨77, 1234, 5⟩)).prt_loc.getD 0 zeroLocator).data_space = 512 ∧
    ((VhdHeader.new 2097152 1536 DD_BLOCKSIZE_DEFAULT
        (some ⟨77, 1234, 5⟩)).prt_loc.getD 0 zeroLocator).data_len = 10 ∧
    ((VhdHeader.new 2097152 1536 DD_BLOCKSIZE_DEFAULT
        (some ⟨77, 1234, 5⟩)).prt_loc.getD 1 zeroLocator).code = PLAT_CODE_NONE ∧
    ((VhdHeader.new 2097152 1536 DD_BLOCKSIZE_DEFAULT
        (some ⟨77, 1234, 5⟩)).prt_loc.filter
          (fun l => l.code ≠ PLAT_CODE_NONE)).length = 1 := by
  decide

/-! ## Reading a freshly created dynamic image

On a fresh dynamic image every BAT entry is `DD_BLOCK_UNUSED` and the zeroed
bitmap cache is never repopulated, so the whole read path falls through to
the zero-fill source. -/

@[simp] theorem Res.bind_ok {α β : Type} (a : α) (f : α → Res β) :
    Res.bind (.ok a) f = f a := rfl

@[simp] theorem Res.bind_err {α β : Type} (e : VhdError) (f : α → Res β) :
    Res.bind (.err e) f = .err e := rfl

@[simp] theorem Res.bind_panic {α β : Type} (f : α → Res β) :
    Res.bind .panic f = .panic := rfl

@[simp] theorem Res.map_ok {α β : Type} (g : α → β) (a : α) :
    Res.map g (.ok a) = .ok (g a) := rfl

@[simp] theorem Res.map_err {α β : Type} (g : α → β) (e : VhdError) :
    Res.map g (.err e) = .err e := rfl

@[simp] theorem freshSparse_cached_block_index (n : Nat) (f : File) (fs np : Nat) :
    (freshSparse n f fs np).cached_block_index = INVALID_CACHE_INDEX := rfl

@[simp] theorem freshSparse_bat (n : Nat) (f : File) (fs np : Nat) :
    (freshSparse n f fs np).bat = VhdBat.new n := rfl

@[simp] theorem freshSparse_cached_bitmap (n : Nat) (f : File) (fs np : Nat) :
    (freshSparse n f fs np).cached_bitmap = List.replicate 512 0 := rfl

@[simp] theorem freshSparse_block_size (n : Nat) (f : File) (fs np : Nat) :
    (freshSparse n f fs np).block_size = DD_BLOCKSIZE_DEFAULT := rfl

@[simp] theorem freshSparse_parent (n : Nat) (f : File) (fs np : Nat) :
    (freshSparse n f fs np).parent = none := rfl

theorem replicate_get? {α : Type} (a : α) :
    ∀ n i : Nat, (List.replicate n a).get? i = if i < n then some a else none := by
  intro n
  induction n with
  | zero => intro i; simp
  | succ n ih =>
      intro i
      cases i with
      | zero => simp [List.replicate]
      | succ i =>
          simp only [List.replicate, List.get?]
          rw [ih i]
          by_cases h : i < n
          · rw [if_pos h, if_pos (by omega)]
          · rw [if_neg h, if_neg (by omega)]

theorem replicate_getD_zero (m j : Nat) : (List.replicate m 0).getD j 0 = 0 := by
  rw [List.getD_eq_getD_get?, replicate_get?]
  split <;> rfl

/-- `VhdBat::new` answers `DD_BLOCK_UNUSED` for every in-range index. -/
theorem new_bat_block_id (n i : Nat) (h : i < n) :
    (VhdBat.new n).block_id i = .ok DD_BLOCK_UNUSED := by
  simp only [VhdBat.new, VhdBat.block_id, replicate_get?, if_pos h]

theorem fresh_cached_ne (nblocks bi : Nat) (hnb : nblocks < 4294967296)
    (hb : bi < nblocks) : INVALID_CACHE_INDEX ≠ bi := by
  simp only [INVALID_CACHE_INDEX]
  omega

theorem populate_fresh (nblocks : Nat) (f : File) (fs np bi : Nat)
    (hnb : nblocks < 4294967296) (hb : bi < nblocks) :
    populate_block_bitmap (freshSparse nblocks f fs np) bi =
      .ok (true, freshSparse nblocks f fs np) := by
  have hne : ¬ ((freshSparse nblocks f fs np).cached_block_index = bi) := by
    rw [freshSparse_cached_block_index]
    exact fresh_cached_ne nblocks bi hnb hb
  unfold populate_block_bitmap
  rw [if_neg hne, freshSparse_bat, new_bat_block_id nblocks bi hb,
    Res.bind_ok, if_pos rfl]

theorem bitmap_test_zeros (m sec : Nat) :
    bitmap_test (List.replicate m 0) sec = false := by
  simp [bitmap_test, replicate_getD_zero]

theorem check_sector_mask_fresh (nblocks : Nat) (f : File) (fs np bi sec : Nat)
    (hnb : nblocks < 4294967296) (hb : bi < nblocks) :
    check_sector_mask (freshSparse nblocks f fs np) bi sec =
      .ok (false, freshSparse nblocks f fs np) := by
  have hne : (freshSparse nblocks f fs np).cached_block_index ≠ bi := by
    rw [freshSparse_cached_block_index]
    exact fresh_cached_ne nblocks bi hnb hb
  unfold check_sector_mask
  rw [if_pos hne, populate_fresh nblocks f fs np bi hnb hb]
  simp only [Res.bind_ok, Bool.true_eq_false, if_false, freshSparse_cached_bitmap,
    bitmap_test_zeros, if_neg]

theorem read_sectors_loop_fresh (nblocks : Nat) (f : File) (fs np bi sib t : Nat)
    (hnb : nblocks < 4294967296) (hb : bi < nblocks) :
    ∀ k c, t - c ≤ k →
      read_sectors_loop (freshSparse nblocks f fs np) bi sib false t c =
        .ok (max c t, freshSparse nblocks f fs np) := by
  intro k
  induction k with
  | zero =>
      intro c hc
      have hct : ¬ c < t := by omega
      rw [read_sectors_loop, dif_neg hct]
      rw [show max c t = c by omega]
  | succ k ih =>
      intro c hc
      by_cases hct : c < t
      · rw [read_sectors_loop, dif_pos hct,
          check_sector_mask_fresh nblocks f fs np bi (sib + c) hnb hb]
        simp only [Res.bind_ok, ne_eq, not_true_eq_false, if_false,
          Bool.false_eq_true]
        rw [ih (c + 1) (by omega)]
        rw [show max (c + 1) t = t by omega, show max c t = t by omega]
      · rw [read_sectors_loop, dif_neg hct]
        rw [show max c t = c by omega]

theorem read_sectors_fresh (nblocks : Nat) (f : File) (fs np to_read bi sib : Nat)
    (hnb : nblocks < 4294967296) (hb : bi < nblocks) :
    read_sectors (freshSparse nblocks f fs np) to_read bi sib =
      .ok ((false, max 1 (to_read / SECTOR) * SECTOR), freshSparse nblocks f fs np) := by
  unfold read_sectors
  rw [check_sector_mask_fresh nblocks f fs np bi sib hnb hb]
  simp only [Res.bind_ok]
  rw [read_sectors_loop_fresh nblocks f fs np bi sib (to_read / SECTOR) hnb hb
    (to_read / SECTOR) 1 (Nat.sub_le _ _)]
  simp only [Res.bind_ok]

theorem read_parent_or_zero_fresh (nblocks : Nat) (f : File) (fs np off len : Nat) :
    read_parent_or_zero (freshSparse nblocks f fs np) off len =
      .ok (List.replicate len 0) := by
  unfold read_parent_or_zero
  rw [freshSparse_parent]

theorem read_block_data_fresh (nblocks : Nat) (f : File) (fs np bi ob buf_len : Nat)
    (hnb : nblocks < 4294967296) (hb : bi < nblocks)
    (hb32 : buf_len < 4294967296) :
    read_block_data (freshSparse nblocks f fs np) bi ob buf_len =
      .ok ((false,
            List.replicate
              (if ob % SECTOR ≠ 0 ∨ buf_len < SECTOR then buf_len
               else max 1 (buf_len / SECTOR) * SECTOR) 0),
           freshSparse nblocks f fs np) := by
  have hmod : buf_len % 4294967296 = buf_len := Nat.mod_eq_of_lt hb32
  by_cases hcase : ob % SECTOR ≠ 0 ∨ buf_len < SECTOR
  · unfold read_block_data
    simp only [hmod, if_pos hcase,
      check_sector_mask_fresh nblocks f fs np bi (ob / SECTOR) hnb hb,
      Res.bind_ok, Bool.false_eq_true, if_false,
      read_parent_or_zero_fresh, freshSparse_block_size]
  · unfold read_block_data
    simp only [hmod, if_neg hcase,
      read_sectors_fresh nblocks f fs np buf_len bi (ob / SECTOR) hnb hb,
      Res.bind_ok, Bool.false_eq_true, if_false,
      read_parent_or_zero_fresh, freshSparse_block_size]

theorem read_block_fresh (nblocks : Nat) (f : File) (fs np offset buf_len : Nat)
    (hnb : nblocks < 4294967296)
    (ho : offset < nblocks * DD_BLOCKSIZE_DEFAULT) (hl : 1 ≤ buf_len)
    (hl32 : buf_len < 4294967296) :
    ∃ n, read_block (freshSparse nblocks f fs np) offset buf_len =
        .ok (List.replicate n 0, freshSparse nblocks f fs np) ∧
      1 ≤ n ∧ n ≤ buf_len := by
  have hBS : DD_BLOCKSIZE_DEFAULT = 2097152 := rfl
  have h512 : SECTOR = 512 := rfl
  have hb : offset / DD_BLOCKSIZE_DEFAULT < nblocks := by
    rw [Nat.div_lt_iff_lt_mul (by rw [hBS]; omega)]
    omega
  have hmod : offset % DD_BLOCKSIZE_DEFAULT < DD_BLOCKSIZE_DEFAULT :=
    Nat.mod_lt _ (by rw [hBS]; omega)
  have hmod32 : buf_len % 4294967296 = buf_len := Nat.mod_eq_of_lt hl32
  have harg : min buf_len (DD_BLOCKSIZE_DEFAULT - offset % DD_BLOCKSIZE_DEFAULT) <
      4294967296 := by
    have := Nat.min_le_left buf_len (DD_BLOCKSIZE_DEFAULT - offset % DD_BLOCKSIZE_DEFAULT)
    omega
  unfold read_block
  simp only [freshSparse_block_size, hmod32,
    populate_fresh nblocks f fs np (offset / DD_BLOCKSIZE_DEFAULT) hnb hb,
    Res.bind_ok, if_true,
    read_block_data_fresh nblocks f fs np (offset / DD_BLOCKSIZE_DEFAULT)
      (offset % DD_BLOCKSIZE_DEFAULT)
      (min buf_len (DD_BLOCKSIZE_DEFAULT - offset % DD_BLOCKSIZE_DEFAULT)) hnb hb harg]
  set ob := offset % DD_BLOCKSIZE_DEFAULT with hob
  set to_read := min buf_len (DD_BLOCKSIZE_DEFAULT - ob) with hto_read
  have htob : to_read ≤ buf_len := Nat.min_le_left _ _
  have hto2 : 1 ≤ to_read := by
    rw [hto_read]
    have h1 : 1 ≤ DD_BLOCKSIZE_DEFAULT - ob := by omega
    omega
  by_cases hcase : ob % SECTOR ≠ 0 ∨ to_read < SECTOR
  · refine ⟨to_read, ?_, hto2, htob⟩
    rw [if_pos hcase]
  · refine ⟨max 1 (to_read / SECTOR) * SECTOR, ?_, ?_, ?_⟩
    · rw [if_neg hcase]
    · rw [h512]
      calc 1 ≤ max 1 (to_read / 512) := le_max_left _ _
        _ ≤ max 1 (to_read / 512) * 512 := Nat.le_mul_of_pos_right _ (by omega)
    · push_neg at hcase
      have hge : 512 ≤ to_read := by rw [← h512]; exact hcase.2
      have hq : 1 ≤ to_read / 512 := (Nat.one_le_div_iff (by omega)).mpr hge
      rw [h512, show max 1 (to_read / 512) = to_read / 512 by omega]
      exact le_trans (Nat.div_mul_le_self to_read 512) htob

theorem read_at_fresh (nblocks : Nat) (f : File) (fs np : Nat)
    (hnb : nblocks < 4294967296) :
    ∀ buf_len offset, buf_len < 4294967296 →
      offset + buf_len ≤ nblocks * DD_BLOCKSIZE_DEFAULT →
      SparseExtent.read_at (freshSparse nblocks f fs np) offset buf_len =
        .ok (List.replicate buf_len 0, freshSparse nblocks f fs np) := by
  intro buf_len
  induction buf_len using Nat.strong_induction_on with
  | _ buf_len ih =>
      intro offset h32 hbound
      rw [SparseExtent.read_at]
      by_cases h0 : buf_len = 0
      · rw [if_pos h0, h0]
        rfl
      · rw [if_neg h0]
        have ho : offset < nblocks * DD_BLOCKSIZE_DEFAULT := by omega
        obtain ⟨n, hrb, hn1, hn2⟩ :=
          read_block_fresh nblocks f fs np offset buf_len hnb ho (by omega) h32
        rw [hrb]
        simp only [Res.bind_ok, List.length_replicate]
        rw [dif_neg (by omega : ¬ n = 0)]
        rw [ih (buf_len - n) (by omega) (offset + n) (by omega) (by omega)]
        simp only [Res.bind_ok]
        rw [← List.replicate_add, show n + (buf_len - n) = buf_len by omega]

/-- C7 (counterexample to the claim as stated): the claim asserts that on a
fresh dynamic image every `read_at(o, L)` with `o ∈ [0, C)` and `L ≤ C − o`
returns `L` zero bytes.  `read_block` truncates `buffer.len() as u32`
(sparse.rs line 364): on a fresh 4 GiB image (2048 blocks, within the
2040 GiB cap), `read_at(0, 2^32)` is inside the claim's domain yet computes
`to_read = min(2^32 mod 2^32, ...) = 0`, the first `read_block` returns 0
bytes, the loop stops, and the call succeeds with 0 bytes instead of `2^32`
zero bytes. -/
theorem fresh_dynamic_reads_zeros_counterexample :
    0 < 2048 * DD_BLOCKSIZE_DEFAULT ∧
    4294967296 ≤ 2048 * DD_BLOCKSIZE_DEFAULT - 0 ∧
    (VhdImage.read_at (freshSparse 2048 zeroFile 2048 2048)
        (2048 * DD_BLOCKSIZE_DEFAULT) 0 4294967296).map (fun r => r.1.length) =
      .ok 0 := by
  refine ⟨by decide, by decide, ?_⟩
  unfold VhdImage.read_at math.bound_to
  rw [if_pos (by decide : (0:Nat) < 2048 * DD_BLOCKSIZE_DEFAULT),
    show min 4294967296 (2048 * DD_BLOCKSIZE_DEFAULT - 0) = 4294967296 from by decide]
  show (SparseExtent.read_at (freshSparse 2048 zeroFile 2048 2048) 0
      4294967296).map (fun r => r.1.length) = .ok 0
  have hrb : read_block (freshSparse 2048 zeroFile 2048 2048) 0 4294967296 =
      .ok ([], freshSparse 2048 zeroFile 2048 2048) := by
    unfold read_block
    simp only [freshSparse_block_size]
    rw [show (0:Nat) / DD_BLOCKSIZE_DEFAULT = 0 from by decide,
      show (0:Nat) % DD_BLOCKSIZE_DEFAULT = 0 from by decide,
      show min (4294967296 % 4294967296) (DD_BLOCKSIZE_DEFAULT - 0) = 0 from by decide]
    rw [populate_fresh 2048 zeroFile 2048 2048 0 (by decide) (by decide)]
    simp only [Res.bind_ok, if_true,
      read_block_data_fresh 2048 zeroFile 2048 2048 0 0 0 (by decide) (by decide)
        (by decide)]
    rw [show (if (0:Nat) % SECTOR ≠ 0 ∨ (0:Nat) < SECTOR then (0:Nat)
          else max 1 (0 / SECTOR) * SECTOR) = 0 from by decide]
    rfl
  rw [SparseExtent.read_at, if_neg (by decide : ¬ (4294967296 : Nat) = 0), hrb]
  simp only [Res.bind_ok, List.length_nil]
  rw [dif_pos trivial]
  rfl

/-- C7 (amended): on a freshly created dynamic image of `nblocks` whole
2 MiB blocks, every in-capacity `read_at(o, L)` with `L < 2^32` succeeds and
returns `L` zero bytes, leaving the extent state unchanged.  The `L < 2^32`
bound is forced by the `buffer.len() as u32` truncation in `read_block`
(see the counterexample); `nblocks < 2^32` because `max_bat_size` is a
`u32`. -/
theorem fresh_dynamic_image_reads_zeros (nblocks : Nat) (f : File) (fs np o L : Nat)
    (hnb : nblocks < 4294967296)
    (ho : o < nblocks * DD_BLOCKSIZE_DEFAULT)
    (hL : L ≤ nblocks * DD_BLOCKSIZE_DEFAULT - o)
    (hL32 : L < 4294967296) :
    VhdImage.read_at (freshSparse nblocks f fs np) (nblocks * DD_BLOCKSIZE_DEFAULT) o L =
      .ok (List.replicate L 0, freshSparse nblocks f fs np) := by
  unfold VhdImage.read_at math.bound_to
  rw [if_pos ho, show min L (nblocks * DD_BLOCKSIZE_DEFAULT - o) = L from by omega]
  exact read_at_fresh nblocks f fs np hnb L o hL32 (by omega)

/-- Witness for C7 at `nblocks = 1`, `o = 0`, `L = 1`. -/
theorem fresh_dynamic_image_reads_zeros_witness :
    1 < 4294967296 ∧ 0 < 1 * DD_BLOCKSIZE_DEFAULT ∧
    1 ≤ 1 * DD_BLOCKSIZE_DEFAULT - 0 ∧ 1 < 4294967296 ∧
    VhdImage.read_at (freshSparse 1 zeroFile 2048 2048) (1 * DD_BLOCKSIZE_DEFAULT) 0 1 =
      .ok (List.replicate 1 0, freshSparse 1 zeroFile 2048 2048) :=
  ⟨by decide, by decide, by decide, by decide,
    fresh_dynamic_image_reads_zeros 1 zeroFile 2048 2048 0 1 (by decide) (by decide)
      (by decide) (by decide)⟩

/-! ## Writing to an unallocated block -/

theorem calc_sector_pos_fresh (nblocks : Nat) (f : File) (fs np bi sib : Nat)
    (hb : bi < nblocks) :
    calc_sector_pos (freshSparse nblocks f fs np) bi sib =
      .err (.UnexpectedBlockId bi DD_BLOCK_UNUSED) := by
  unfold calc_sector_pos
  rw [freshSparse_bat, new_bat_block_id nblocks bi hb]
  simp only [Res.bind_ok, if_pos rfl, if_true]

theorem write_block_fresh (nblocks : Nat) (f : File) (fs np offset : Nat)
    (data : List Nat) (hnb : nblocks < 4294967296)
    (ho : offset < nblocks * DD_BLOCKSIZE_DEFAULT) :
    write_block (freshSparse nblocks f fs np) offset data =
      .err (.UnexpectedBlockId (offset / DD_BLOCKSIZE_DEFAULT) DD_BLOCK_UNUSED) := by
  have hBS : DD_BLOCKSIZE_DEFAULT = 2097152 := rfl
  have hb : offset / DD_BLOCKSIZE_DEFAULT < nblocks := by
    rw [Nat.div_lt_iff_lt_mul (by rw [hBS]; omega)]
    omega
  unfold write_block
  simp only [freshSparse_block_size,
    populate_fresh nblocks f fs np (offset / DD_BLOCKSIZE_DEFAULT) hnb hb,
    Res.bind_ok, Bool.true_eq_false, if_false]
  by_cases hcase : offset % DD_BLOCKSIZE_DEFAULT % SECTOR ≠ 0 ∨
      min data.length (DD_BLOCKSIZE_DEFAULT - offset % DD_BLOCKSIZE_DEFAULT) < SECTOR
  · rw [if_pos hcase]
    simp only [read_block_data_fresh nblocks f fs np (offset / DD_BLOCKSIZE_DEFAULT)
        (math.round_down (offset % DD_BLOCKSIZE_DEFAULT % SECTOR) SECTOR) SECTOR hnb hb
        (by decide),
      Res.bind_ok,
      calc_sector_pos_fresh nblocks f fs np (offset / DD_BLOCKSIZE_DEFAULT)
        (offset % DD_BLOCKSIZE_DEFAULT / SECTOR) hb,
      Res.bind_err]
  · rw [if_neg hcase]
    simp only [calc_sector_pos_fresh nblocks f fs np (offset / DD_BLOCKSIZE_DEFAULT)
        (offset % DD_BLOCKSIZE_DEFAULT / SECTOR) hb,
      Res.bind_err]

theorem write_at_fresh_fails (nblocks : Nat) (f : File) (fs np offset : Nat)
    (data : List Nat) (hnb : nblocks < 4294967296)
    (ho : offset < nblocks * DD_BLOCKSIZE_DEFAULT) (hd : data ≠ []) :
    SparseExtent.write_at (freshSparse nblocks f fs np) offset data =
      .err (.UnexpectedBlockId (offset / DD_BLOCKSIZE_DEFAULT) DD_BLOCK_UNUSED) := by
  rw [SparseExtent.write_at]
  rw [dif_neg (by simpa using hd)]
  rw [write_block_fresh nblocks f fs np offset data hnb ho]
  rfl

/-- C2: the claim says a `write_at` targeting a block whose BAT entry is
`UNUSED` first allocates the block (the entry transitioning once from
`UNUSED` to the new sector pointer) and then succeeds, never failing with
`UnexpectedBlockId`.  In the source `populate_block_bitmap` returns
`Ok(true)` even for an `UNUSED` entry, so `write_block` never calls
`allocate_block` and `calc_sector_pos` fails instead: on a fresh dynamic
image every in-capacity `write_at` with a non-empty buffer returns
`Err(UnexpectedBlockId(block_index, 0xFFFFFFFF))`. -/
theorem write_to_unallocated_block_fails (nblocks : Nat) (f : File)
    (fs np o : Nat) (data : List Nat) (hnb : nblocks < 4294967296)
    (ho : o < nblocks * DD_BLOCKSIZE_DEFAULT) (hd : data ≠ []) :
    VhdImage.write_at (freshSparse nblocks f fs np)
        (nblocks * DD_BLOCKSIZE_DEFAULT) o data =
      .err (.UnexpectedBlockId (o / DD_BLOCKSIZE_DEFAULT) DD_BLOCK_UNUSED) := by
  unfold VhdImage.write_at math.bound_to
  rw [if_pos ho]
  apply write_at_fresh_fails nblocks f fs np o _ hnb ho
  have hlen : 1 ≤ data.length := by
    cases data with
    | nil => exact absurd rfl hd
    | cons a l => simp
  have h1 : 1 ≤ min data.length (nblocks * DD_BLOCKSIZE_DEFAULT - o) := by omega
  have : (data.take (min data.length (nblocks * DD_BLOCKSIZE_DEFAULT - o))).length =
      min (min data.length (nblocks * DD_BLOCKSIZE_DEFAULT - o)) data.length := by
    rw [List.length_take]
  intro hnil
  rw [hnil] at this
  simp at this
  omega

/-- Witness for C2 at `nblocks = 1`, `o = 0`, `data = [65]`. -/
theorem write_to_unallocated_block_fails_witness :
    1 < 4294967296 ∧ 0 < 1 * DD_BLOCKSIZE_DEFAULT ∧ ([65] : List Nat) ≠ [] ∧
    VhdImage.write_at (freshSparse 1 zeroFile 2048 2048)
        (1 * DD_BLOCKSIZE_DEFAULT) 0 [65] =
      .err (.UnexpectedBlockId 0 DD_BLOCK_UNUSED) :=
  ⟨by decide, by decide, by simp,
    write_to_unallocated_block_fails 1 zeroFile 2048 2048 0 [65] (by decide)
      (by decide) (by simp)⟩

/-! ## The sector-bit representation (C10) -/

@[simp] theorem mark_cached_bitmap_dirty_cached_block_index (s : SparseState)
    (sec : Nat) :
    (mark_cached_bitmap_dirty s sec).cached_block_index = s.cached_block_index := rfl

@[simp] theorem mark_cached_bitmap_dirty_bitmap (s : SparseState) (sec : Nat) :
    (mark_cached_bitmap_dirty s sec).cached_bitmap =
      s.cached_bitmap.set (sec / 8)
        (s.cached_bitmap.getD (sec / 8) 0 ||| calc_sector_mask sec) := rfl

theorem getD_set_same (l : List Nat) (i v : Nat) (h : i < l.length) :
    (l.set i v).getD i 0 = v := by
  rw [List.getD_eq_getD_get?, List.get?_set_eq_of_lt v h]
  rfl

theorem getD_set_other (l : List Nat) (i j v : Nat) (h : i ≠ j) :
    (l.set i v).getD j 0 = l.getD j 0 := by
  rw [List.getD_eq_getD_get?, List.get?_set_ne v l h, ← List.getD_eq_getD_get?]

theorem calc_sector_mask_eq_pow (sec : Nat) :
    calc_sector_mask sec = 2 ^ (7 - sec % 8) := by
  unfold calc_sector_mask
  rw [Nat.shiftLeft_eq, one_mul]

theorem bitmap_test_eq_testBit (bm : List Nat) (sec : Nat) :
    bitmap_test bm sec = (bm.getD (sec / 8) 0).testBit (7 - sec % 8) := by
  unfold bitmap_test
  rw [calc_sector_mask_eq_pow, Nat.and_two_pow]
  cases h : (bm.getD (sec / 8) 0).testBit (7 - sec % 8) <;> simp [h]

/-- C10: sector `s` of the cached block is bit `7 - (s % 8)` of bitmap byte
`⌊s/8⌋` (`calc_sector_mask`); `mark_cached_bitmap_dirty(s)` sets exactly that
bit, so a subsequent `check_sector_mask` for `s` on the same cached block
answers `true` while the reading of any other sector `s2` is unchanged. -/
theorem mark_dirty_sets_exactly_its_sector_bit (s : SparseState)
    (index sec sec2 : Nat) (hc : s.cached_block_index = index)
    (hlen : sec / 8 < s.cached_bitmap.length) (hne : sec2 ≠ sec) :
    calc_sector_mask sec = 2 ^ (7 - sec % 8) ∧
    check_sector_mask (mark_cached_bitmap_dirty s sec) index sec =
      .ok (true, mark_cached_bitmap_dirty s sec) ∧
    bitmap_test (mark_cached_bitmap_dirty s sec).cached_bitmap sec2 =
      bitmap_test s.cached_bitmap sec2 := by
  refine ⟨calc_sector_mask_eq_pow sec, ?_, ?_⟩
  · unfold check_sector_mask
    rw [if_neg (by simp [hc])]
    simp only [Res.bind_ok]
    rw [bitmap_test_eq_testBit, mark_cached_bitmap_dirty_bitmap,
      getD_set_same _ _ _ hlen, calc_sector_mask_eq_pow,
      Nat.testBit_lor, Nat.testBit_two_pow_self, Bool.or_true]
  · by_cases hbyte : sec / 8 = sec2 / 8
    · have hmod : sec % 8 ≠ sec2 % 8 := by omega
      have hbit : 7 - sec % 8 ≠ 7 - sec2 % 8 := by
        have h1 : sec % 8 < 8 := Nat.mod_lt _ (by omega)
        have h2 : sec2 % 8 < 8 := Nat.mod_lt _ (by omega)
        omega
      rw [bitmap_test_eq_testBit, bitmap_test_eq_testBit,
        mark_cached_bitmap_dirty_bitmap, ← hbyte,
        getD_set_same _ _ _ hlen, calc_sector_mask_eq_pow,
        Nat.testBit_lor, Nat.testBit_two_pow_of_ne hbit, Bool.or_false, hbyte]
    · rw [bitmap_test_eq_testBit, bitmap_test_eq_testBit,
        mark_cached_bitmap_dirty_bitmap, getD_set_other _ _ _ _ hbyte]

set_option maxRecDepth 40000 in
/-- Witness for C10 on the cached demo state, `sec = 3`, `sec2 = 5`. -/
theorem mark_dirty_sets_exactly_its_sector_bit_witness :
    allocDemoState.cached_block_index = 0 ∧
    3 / 8 < allocDemoState.cached_bitmap.length ∧ (5 : Nat) ≠ 3 ∧
    (calc_sector_mask 3 = 2 ^ (7 - 3 % 8) ∧
     check_sector_mask (mark_cached_bitmap_dirty allocDemoState 3) 0 3 =
       .ok (true, mark_cached_bitmap_dirty allocDemoState 3) ∧
     bitmap_test (mark_cached_bitmap_dirty allocDemoState 3).cached_bitmap 5 =
       bitmap_test allocDemoState.cached_bitmap 5) :=
  ⟨rfl, by decide, by decide,
    mark_dirty_sets_exactly_its_sector_bit allocDemoState 0 3 5 rfl (by decide)
      (by decide)⟩

/-! ## The journal cannot be committed or reverted (C1) -/

def demoFile : File := fun b => b % 256

/-- C1: the claim says that after a journalled edit session `revert()`
walks the entries in reverse, writes every recorded payload back at its
recorded offset and deletes the journal, leaving the image file bytewise
identical to its pre-mutation state, and that `commit()` deletes the
journal.  In the source both bodies are `todo!()` stubs: on the journal of
any session — here one that recorded bytes `[0,2)` and then overwrote
byte 0 — `revert()` and `commit()` panic, restoring nothing and deleting
nothing. -/
theorem journal_revert_commit_unimplemented :
    VhdJournal.revert
        (runTrace demoFile [JStep.record 0 2, JStep.mutate 0 [7]] []).2 = .panic ∧
    VhdJournal.commit
        (runTrace demoFile [JStep.record 0 2, JStep.mutate 0 [7]] []).2 = .panic :=
  ⟨rfl, rfl⟩

end Rvhd
